import Mathlib

/-!
# Verification of the runtime configuration loader and deployment scripts

Shallow embedding of the executable core of the `angular-release-deployment-frontend`
repository:

* `ConfigService` (src/app/core/services/config.service.ts): the runtime
  environment-configuration loader — `loadConfig`, `getConfig`, the field
  accessors and `validateConfig`.
* `deploy.mjs` and `deploy.sh`: the per-environment deployment orchestrator —
  argument validation, `.env.aws` handling, build, configuration substitution,
  S3 mirror publish and the production-only CloudFront invalidation.

TypeScript objects fetched as JSON are modelled as association lists of
`JValue`s (a `none` lookup models JavaScript's `undefined`); thrown exceptions
become `Except String`; the external collaborators of the deploy scripts
(the build tool, the filesystem, `aws s3 sync`, `aws cloudfront
create-invalidation`, the parsed `.env.aws` variables) are inputs in a
`World` record, and the scripts' side effects are recorded in a
`DeployResult`.
-/

namespace Spec2Proof

/-! ## JSON values and documents -/

/-- A runtime JSON value, as produced by parsing the configuration document
(`HttpClient.get` hands `ConfigService` the parsed object; TypeScript
interface annotations do not exist at runtime). -/
inductive JValue where
  | jnull
  | jbool (b : Bool)
  | jstr (s : String)
  | jnum (n : Int)
  | jobj (fields : List (String × JValue))

/-- A configuration document: the top-level JSON object, as key/value pairs. -/
abbrev JDoc := List (String × JValue)

/-- Property access `doc[k]`: `none` models JavaScript's `undefined`
(the key is absent), `some .jnull` models an explicit `null`. -/
def jlookup (doc : JDoc) (k : String) : Option JValue :=
  (doc.find? (fun p => p.1 == k)).map (fun p => p.2)

/-- JavaScript string conversion of a value, as performed by `new URL(x)`
and by template-literal interpolation. -/
def jsToString : JValue → String
  | .jnull => "null"
  | .jbool true => "true"
  | .jbool false => "false"
  | .jstr s => s
  | .jnum n => toString n
  | .jobj _ => "[object Object]"

/-- String conversion of a possibly-`undefined` value. -/
def jsToStringOpt : Option JValue → String
  | none => "undefined"
  | some v => jsToString v

/-! ## The URL parser model

`ConfigService.isValidUrl` calls the platform's WHATWG `new URL(url)`
constructor, which is not code of this repository. -/

/-- Modelled from the spec: `apiBaseUrl` and `authBaseUrl` "must each parse as
a well-formed absolute URL". The platform `new URL` constructor is external to
the repository; here a string parses as an absolute URL iff it begins with a
scheme — an ASCII letter followed by letters, digits, `+`, `-` or `.` — and a
colon. -/
def urlParses (s : String) : Bool :=
  match s.toList with
  | [] => false
  | c :: rest =>
    c.isAlpha &&
      (let schemeTail := rest.takeWhile
          (fun ch => ch.isAlphanum || ch == '+' || ch == '-' || ch == '.')
       match rest.drop schemeTail.length with
       | ':' :: _ => true
       | _ => false)

/-- `ConfigService.isValidUrl`: `new URL(url)` succeeds (the argument is
string-converted by the constructor, so a non-string value is parsed via its
string form; an `undefined` field would read as the string `"undefined"`). -/
def isValidUrl (u : Option JValue) : Bool :=
  urlParses (jsToStringOpt u)

/-! ## ConfigService -/

/-- The required fields of `validateConfig`
(`config.service.ts`, lines 89–95). The spec's §3 data model refers to
`production` as `isProduction`, to `apiUrl` as `apiBaseUrl` and to `authUrl`
as `authBaseUrl`; the JSON keys the code validates are these. -/
def requiredFields : List String :=
  ["name", "production", "apiUrl", "authUrl", "features"]

/-- One iteration of the `validateConfig` loop: the field is `undefined` or
`null` (`config[field] === undefined || config[field] === null`). -/
def missingIn (doc : JDoc) (f : String) : Bool :=
  match jlookup doc f with
  | none => true
  | some .jnull => true
  | some _ => false

/-- The first required field the `validateConfig` loop rejects, if any. -/
def firstMissingField (doc : JDoc) : Option String :=
  requiredFields.find? (fun f => missingIn doc f)

/-- `ConfigService.validateConfig` (config.service.ts, lines 88–113):
throws on the first `undefined`/`null` required field, then on a malformed
`apiUrl`, then on a malformed `authUrl`. -/
def validateConfig (config : JDoc) : Except String Unit :=
  match firstMissingField config with
  | some f => .error ("Missing required configuration field: " ++ f)
  | none =>
    if isValidUrl (jlookup config "apiUrl") = false then
      .error ("Invalid API URL: " ++ jsToStringOpt (jlookup config "apiUrl"))
    else if isValidUrl (jlookup config "authUrl") = false then
      .error ("Invalid Auth URL: " ++ jsToStringOpt (jlookup config "authUrl"))
    else
      .ok ()

/-- The state of a `ConfigService` instance: the private `config` field,
`EnvironmentConfig | null`, initially `null`. -/
structure ConfigService where
  config : Option JDoc

/-- Outcome of the `http.get(CONFIG_PATH)` fetch awaited by `loadConfig`:
either the network/JSON-parse stage fails, or it yields a parsed document. -/
inductive FetchResult where
  | fetchError (msg : String)
  | fetchOk (doc : JDoc)

/-- `ConfigService.loadConfig` (config.service.ts, lines 36–48): awaits the
fetch and assigns `this.config`, then validates it; any failure is caught and
rethrown as `Failed to load application configuration`. Note that the
assignment to `this.config` happens before validation, and the `catch` block
does not reset it. Returns the new service state and the promise outcome. -/
def loadConfig (s : ConfigService) (fetch : FetchResult) :
    ConfigService × Except String Unit :=
  match fetch with
  | .fetchError _ => (s, .error "Failed to load application configuration")
  | .fetchOk doc =>
    let s1 : ConfigService := ⟨some doc⟩
    match validateConfig doc with
    | .error _ => (s1, .error "Failed to load application configuration")
    | .ok () => (s1, .ok ())

/-- The error message of `getConfig` when `this.config` is `null`. -/
def notLoadedMsg : String :=
  "Configuration not loaded. APP_INITIALIZER may have failed."

/-- `ConfigService.getConfig` (config.service.ts, lines 54–59): throws
`notLoadedMsg` iff the cached `config` is `null` (an object is always
truthy in `if (!this.config)`). -/
def getConfig (s : ConfigService) : Except String JDoc :=
  match s.config with
  | none => .error notLoadedMsg
  | some c => .ok c

/-- Generic field read through `getConfig`, as each accessor getter does. -/
def getField (s : ConfigService) (k : String) : Except String (Option JValue) :=
  (getConfig s).map (fun c => jlookup c k)

/-- The `apiUrl` getter: `this.getConfig().apiUrl`. -/
def accessor_apiUrl (s : ConfigService) : Except String (Option JValue) :=
  getField s "apiUrl"

/-- The `authUrl` getter: `this.getConfig().authUrl`. -/
def accessor_authUrl (s : ConfigService) : Except String (Option JValue) :=
  getField s "authUrl"

/-- The `isProduction` getter: `this.getConfig().production`. -/
def accessor_isProduction (s : ConfigService) : Except String (Option JValue) :=
  getField s "production"

/-- The `environmentName` getter: `this.getConfig().name`. -/
def accessor_environmentName (s : ConfigService) : Except String (Option JValue) :=
  getField s "name"

/-- The `features` getter: `this.getConfig().features`. -/
def accessor_features (s : ConfigService) : Except String (Option JValue) :=
  getField s "features"

/-! ## The deployment scripts

`deploy.mjs` and `deploy.sh` are embedded as functions from the requested
environment name and a `World` of external collaborators to a `DeployResult`
recording the exit status and every observable side effect.  File paths are
written relative to the repository root (`deploy.mjs` joins them onto
`__dirname`, `deploy.sh` uses exactly these relative paths). -/

/-- The external collaborators and operator state a deploy run interacts
with.  `envVars` is the variable list of `.env.aws` — `deploy.mjs` parses its
`KEY=VALUE` lines, `deploy.sh` `source`s it; both are modelled as this list of
defined (non-empty-valued) variables, later entries overriding earlier ones. -/
structure World where
  /-- `.env.aws` exists (`fs.existsSync` / `[ -f .env.aws ]`). -/
  envFilePresent : Bool
  /-- The variables `.env.aws` defines. -/
  envVars : List (String × String)
  /-- Filesystem: the file at the given path exists (`fs.existsSync` /
  `[ -f ... ]`), queried on the environment's source-config path. -/
  sourceConfigExists : String → Bool
  /-- Filesystem: bytes of the file at the given path. -/
  sourceConfigBytes : String → String
  /-- The `npm run build` collaborator succeeds. -/
  buildOk : Bool
  /-- The artifact tree the build collaborator leaves in
  `dist/angular-release-deployment-frontend/browser` (path ↦ bytes). -/
  builtTree : String → Option String
  /-- The `aws s3 sync ... --delete` collaborator succeeds. -/
  syncOk : Bool
  /-- The `aws cloudfront create-invalidation` collaborator succeeds. -/
  invalidateOk : Bool

/-- Everything observable about one deploy run: the process exit code, the
script's own diagnostic for script-detected failures, and the calls made to
the build / publish / invalidation collaborators. -/
structure DeployResult where
  /-- Process exit code (0 on overall success). -/
  exitCode : Nat
  /-- The script's own error message, when the script itself detected the
  failure (`none` for collaborator-originated failures and for success). -/
  message : Option String
  /-- The commands passed to the build tool, in order. -/
  buildCommands : List String
  /-- The destination buckets of the `aws s3 sync` calls made. -/
  syncBuckets : List String
  /-- How many `aws cloudfront create-invalidation` calls were made. -/
  invalidationCalls : Nat
  /-- The non-fatal `CloudFront invalidation failed (not critical)` warning
  was emitted. -/
  invalidationWarning : Bool
  /-- The artifact tree now served from the destination bucket, when the
  publish step completed (mirror semantics: destination equals source tree). -/
  publishedTree : Option (String → Option String)

/-- Look up a variable of `.env.aws` (later definitions override earlier
ones, as both object assignment in `deploy.mjs` and `source` do). -/
def envLookup (vars : List (String × String)) (k : String) : Option String :=
  (vars.reverse.find? (fun p => p.1 == k)).map (fun p => p.2)

/-- The closed set of environments both scripts accept:
`deploy.mjs` line 43 (`validEnvironments`) and the `deploy.sh` line 43 `case`
pattern `dev|qa|staging|prod`. -/
def validEnvironments : List String :=
  ["dev", "qa", "staging", "prod"]

/-- The per-environment configuration file name: `prod` is mapped to
`environment.production.json`, every other environment `e` to
`environment.e.json` (`deploy.mjs` lines 113–115, `deploy.sh` lines 59–63). -/
def configFile (environment : String) : String :=
  if environment = "prod" then "environment.production.json"
  else "environment." ++ environment ++ ".json"

/-- The source path of the environment's configuration document. -/
def sourceConfigPath (environment : String) : String :=
  "src/assets/config/" ++ configFile environment

/-- The fixed path inside the build artifact that the configuration loader
later fetches — the copy target of the substitution step. -/
def targetConfigPath : String :=
  "dist/angular-release-deployment-frontend/browser/assets/config/environment.json"

/-- The destination bucket: `angular-deploy-${environment}-${UNIQUE_ID}`. -/
def bucketName (environment uniqueId : String) : String :=
  "angular-deploy-" ++ environment ++ "-" ++ uniqueId

/-- The build command both scripts run — a string constant with no access to
the requested environment (`deploy.mjs` line 138, `deploy.sh` line 77). -/
def buildCommand : String :=
  "npm run build -- --configuration=production"

/-- Step 2, configuration substitution: `copyFileSync(sourceConfig,
targetConfig)` / `cp "$SOURCE_CONFIG" "$TARGET_CONFIG"` — overwrite the fixed
`targetConfigPath` slot of the artifact tree with the environment's source
configuration document; every other path is untouched. -/
def substituteConfig (w : World) (tree : String → Option String)
    (environment : String) : String → Option String :=
  fun p =>
    if p = targetConfigPath then some (w.sourceConfigBytes (sourceConfigPath environment))
    else tree p

/-- A `deploy.mjs` failure before any collaborator was called. -/
def mjsEarlyFail (msg : String) : DeployResult :=
  { exitCode := 1, message := some msg, buildCommands := [], syncBuckets := [],
    invalidationCalls := 0, invalidationWarning := false, publishedTree := none }

/-- `deploy.mjs`: validates the argument against `validEnvironments`, loads
`.env.aws` and requires `UNIQUE_ID`, then runs build → configuration
substitution → `aws s3 sync --delete` → (for `prod` only, and only when
`CLOUDFRONT_DISTRIBUTION_ID` is set) CloudFront invalidation, whose failure
is caught and reported as a warning only (lines 199–210). -/
def deployMjs (w : World) (environment : String) : DeployResult :=
  if environment = "" then
    mjsEarlyFail "No environment specified"
  else if environment ∉ validEnvironments then
    mjsEarlyFail ("Invalid environment: '" ++ environment ++ "'")
  else if w.envFilePresent = false then
    mjsEarlyFail ".env.aws file not found!"
  else
    match envLookup w.envVars "UNIQUE_ID" with
    | none => mjsEarlyFail "UNIQUE_ID not found in .env.aws"
    | some uniqueId =>
      -- Step 1: npm run build (environment-independent command)
      if w.buildOk = false then
        { exitCode := 1, message := none, buildCommands := [buildCommand],
          syncBuckets := [], invalidationCalls := 0, invalidationWarning := false,
          publishedTree := none }
      -- Step 2: configuration substitution
      else if w.sourceConfigExists (sourceConfigPath environment) = false then
        { exitCode := 1,
          message := some ("Config file not found: " ++ sourceConfigPath environment),
          buildCommands := [buildCommand], syncBuckets := [],
          invalidationCalls := 0, invalidationWarning := false, publishedTree := none }
      else
        let tree := substituteConfig w w.builtTree environment
        -- Step 3: aws s3 sync dist/... s3://bucket --delete
        if w.syncOk = false then
          { exitCode := 1, message := none, buildCommands := [buildCommand],
            syncBuckets := [bucketName environment uniqueId],
            invalidationCalls := 0, invalidationWarning := false, publishedTree := none }
        -- Step 4: CloudFront invalidation, prod only, non-fatal
        else if environment = "prod" then
          if (envLookup w.envVars "CLOUDFRONT_DISTRIBUTION_ID").isSome = false then
            { exitCode := 0, message := none, buildCommands := [buildCommand],
              syncBuckets := [bucketName environment uniqueId],
              invalidationCalls := 0, invalidationWarning := false,
              publishedTree := some tree }
          else if w.invalidateOk then
            { exitCode := 0, message := none, buildCommands := [buildCommand],
              syncBuckets := [bucketName environment uniqueId],
              invalidationCalls := 1, invalidationWarning := false,
              publishedTree := some tree }
          else
            { exitCode := 0, message := none, buildCommands := [buildCommand],
              syncBuckets := [bucketName environment uniqueId],
              invalidationCalls := 1, invalidationWarning := true,
              publishedTree := some tree }
        else
          { exitCode := 0, message := none, buildCommands := [buildCommand],
            syncBuckets := [bucketName environment uniqueId],
            invalidationCalls := 0, invalidationWarning := false,
            publishedTree := some tree }

/-- A `deploy.sh` failure before any collaborator was called. -/
def shEarlyFail (msg : String) : DeployResult :=
  { exitCode := 1, message := some msg, buildCommands := [], syncBuckets := [],
    invalidationCalls := 0, invalidationWarning := false, publishedTree := none }

/-- `deploy.sh`: runs under `set -e`.  It checks `.env.aws` existence
*before* validating the environment argument, never checks `UNIQUE_ID`
(an unset variable expands to the empty string in `BUCKET_NAME`), and a
failing `aws cloudfront create-invalidation` aborts the whole script via
`set -e` — the `[ $? -eq 0 ]` else-branch that would print the
`not critical` warning (line 136) is unreachable.  A failing collaborator's
non-zero status is modelled as exit code 1. -/
def deploySh (w : World) (environment : String) : DeployResult :=
  if w.envFilePresent = false then
    shEarlyFail "Error: .env.aws file not found!"
  else if environment = "" then
    shEarlyFail "Error: No environment specified"
  else if environment ∉ validEnvironments then
    shEarlyFail ("Error: Invalid environment '" ++ environment ++ "'")
  else
    -- BUCKET_NAME="angular-deploy-${ENVIRONMENT}-${UNIQUE_ID}"; unset UNIQUE_ID
    -- expands to "" (no `set -u`, and no explicit check)
    let uniqueId := (envLookup w.envVars "UNIQUE_ID").getD ""
    -- Step 1: npm run build; on failure `set -e` exits
    if w.buildOk = false then
      { exitCode := 1, message := none, buildCommands := [buildCommand],
        syncBuckets := [], invalidationCalls := 0, invalidationWarning := false,
        publishedTree := none }
    -- Step 2: configuration substitution
    else if w.sourceConfigExists (sourceConfigPath environment) = false then
      { exitCode := 1,
        message := some ("Error: Config file not found: " ++ sourceConfigPath environment),
        buildCommands := [buildCommand], syncBuckets := [],
        invalidationCalls := 0, invalidationWarning := false, publishedTree := none }
    else
      let tree := substituteConfig w w.builtTree environment
      -- Step 3: aws s3 sync; on failure `set -e` exits
      if w.syncOk = false then
        { exitCode := 1, message := none, buildCommands := [buildCommand],
          syncBuckets := [bucketName environment uniqueId],
          invalidationCalls := 0, invalidationWarning := false, publishedTree := none }
      -- Step 4: CloudFront invalidation, prod only
      else if environment = "prod" then
        if (envLookup w.envVars "CLOUDFRONT_DISTRIBUTION_ID").isSome = false then
          { exitCode := 0, message := none, buildCommands := [buildCommand],
            syncBuckets := [bucketName environment uniqueId],
            invalidationCalls := 0, invalidationWarning := false,
            publishedTree := some tree }
        else if w.invalidateOk then
          { exitCode := 0, message := none, buildCommands := [buildCommand],
            syncBuckets := [bucketName environment uniqueId],
            invalidationCalls := 1, invalidationWarning := false,
            publishedTree := some tree }
        else
          -- `set -e` aborts here: the objects are already published, but the
          -- run terminates with the aws command's non-zero status and the
          -- warning branch below it never executes.
          { exitCode := 1, message := none, buildCommands := [buildCommand],
            syncBuckets := [bucketName environment uniqueId],
            invalidationCalls := 1, invalidationWarning := false,
            publishedTree := some tree }
      else
        { exitCode := 0, message := none, buildCommands := [buildCommand],
          syncBuckets := [bucketName environment uniqueId],
          invalidationCalls := 0, invalidationWarning := false,
          publishedTree := some tree }

/-! ## Concrete fixtures used by witnesses and counterexamples -/

/-- A fully healthy operator world: `.env.aws` present with `UNIQUE_ID` and
`CLOUDFRONT_DISTRIBUTION_ID`, every config file present, all collaborators
succeeding. -/
def allGood : World :=
  { envFilePresent := true
    envVars := [("UNIQUE_ID", "shree-1767366539"),
                ("CLOUDFRONT_DISTRIBUTION_ID", "E2ABCDEF")]
    sourceConfigExists := fun _ => true
    sourceConfigBytes := fun _ => "config-document-bytes"
    buildOk := true
    builtTree := fun _ => none
    syncOk := true
    invalidateOk := true }

/-- An artifact tree with nothing in it. -/
def emptyTree : String → Option String := fun _ => none

/-- A world whose `.env.aws` does not define `UNIQUE_ID`. -/
def noUniqueId : World :=
  { allGood with envVars := [("CLOUDFRONT_DISTRIBUTION_ID", "E2ABCDEF")] }

/-- A world in which the CloudFront invalidation collaborator fails while
everything else succeeds. -/
def invalidationFails : World :=
  { allGood with invalidateOk := false }

/-- A world in which no environment configuration document exists on disk. -/
def noConfigOnDisk : World :=
  { allGood with sourceConfigExists := fun _ => false }

/-- The §8 scenario document (with the JSON keys the code actually reads):
all required fields present and both URLs well-formed. -/
def cfgValidQa : JDoc :=
  [("name", .jstr "qa"), ("production", .jbool false),
   ("apiUrl", .jstr "https://api-qa.example.com"),
   ("authUrl", .jstr "https://auth-qa.example.com"),
   ("features", .jobj [("enableAnalytics", .jbool false),
                       ("enableLogging", .jbool true)])]

/-- `cfgValidQa` with `apiUrl` replaced by a string that is not a URL. -/
def cfgBadApiUrl : JDoc :=
  [("name", .jstr "qa"), ("production", .jbool false),
   ("apiUrl", .jstr "not a url"),
   ("authUrl", .jstr "https://auth-qa.example.com"),
   ("features", .jobj [("enableAnalytics", .jbool false),
                       ("enableLogging", .jbool true)])]

/-- `cfgValidQa` with the required field `apiUrl` removed. -/
def cfgMissingApiUrl : JDoc :=
  [("name", .jstr "qa"), ("production", .jbool false),
   ("authUrl", .jstr "https://auth-qa.example.com"),
   ("features", .jobj [("enableAnalytics", .jbool false),
                       ("enableLogging", .jbool true)])]

/-- `cfgValidQa` with the required field `production` removed. -/
def cfgMissingProduction : JDoc :=
  [("name", .jstr "qa"),
   ("apiUrl", .jstr "https://api-qa.example.com"),
   ("authUrl", .jstr "https://auth-qa.example.com"),
   ("features", .jobj [("enableAnalytics", .jbool false),
                       ("enableLogging", .jbool true)])]

/-- `cfgValidQa` with the boolean field `production` mistyped as the string
`yes`. -/
def cfgMistypedProduction : JDoc :=
  [("name", .jstr "qa"), ("production", .jstr "yes"),
   ("apiUrl", .jstr "https://api-qa.example.com"),
   ("authUrl", .jstr "https://auth-qa.example.com"),
   ("features", .jobj [("enableAnalytics", .jbool false),
                       ("enableLogging", .jbool true)])]

/-! ## Helper lemmas -/

/-- `sub` occurs inside `s` (used to state that an error message names a
given environment or path). -/
abbrev containsStr (s sub : String) : Prop :=
  ∃ pre post : String, s = pre ++ sub ++ post

lemma mem_validEnvironments_iff (e : String) :
    e ∈ validEnvironments ↔ e = "dev" ∨ e = "qa" ∨ e = "staging" ∨ e = "prod" := by
  simp [validEnvironments]

lemma ne_empty_of_valid {e : String} (he : e ∈ validEnvironments) : e ≠ "" := by
  rcases (mem_validEnvironments_iff e).mp he with rfl | rfl | rfl | rfl <;> decide

lemma mem_requiredFields_iff (f : String) :
    f ∈ requiredFields ↔
      f = "name" ∨ f = "production" ∨ f = "apiUrl" ∨ f = "authUrl" ∨ f = "features" := by
  simp [requiredFields]

lemma missingIn_false_of_present {doc : JDoc} {g : String}
    (h : ∃ v, jlookup doc g = some v ∧ v ≠ .jnull) : missingIn doc g = false := by
  rcases h with ⟨v, hv, hnn⟩
  cases v
  · exact absurd rfl hnn
  all_goals simp [missingIn, hv]

lemma missingIn_true_of_absent {doc : JDoc} {f : String}
    (h : jlookup doc f = none ∨ jlookup doc f = some .jnull) : missingIn doc f = true := by
  rcases h with h | h <;> simp [missingIn, h]

lemma missingIn_eq_false_iff (doc : JDoc) (f : String) :
    missingIn doc f = false ↔ jlookup doc f ≠ none ∧ jlookup doc f ≠ some .jnull := by
  rcases h : jlookup doc f with _ | v
  · simp [missingIn, h]
  · cases v <;> simp [missingIn, h]

lemma firstMissingField_eq_none_iff (doc : JDoc) :
    firstMissingField doc = none ↔ ∀ f ∈ requiredFields, missingIn doc f = false := by
  simp [firstMissingField, List.find?_eq_none]

/-- The `validateConfig` loop reports exactly the sole offending field: if
`F` is required and missing while every other required field is present and
non-null, the loop stops at `F`. -/
lemma firstMissingField_eq_some {doc : JDoc} {F : String} (hF : F ∈ requiredFields)
    (hT : missingIn doc F = true)
    (hO : ∀ G ∈ requiredFields, G ≠ F → missingIn doc G = false) :
    firstMissingField doc = some F := by
  rcases (mem_requiredFields_iff F).mp hF with rfl | rfl | rfl | rfl | rfl
  · simp [firstMissingField, requiredFields, List.find?, hT]
  · have h1 := hO "name" (by simp [requiredFields]) (by decide)
    simp [firstMissingField, requiredFields, List.find?, h1, hT]
  · have h1 := hO "name" (by simp [requiredFields]) (by decide)
    have h2 := hO "production" (by simp [requiredFields]) (by decide)
    simp [firstMissingField, requiredFields, List.find?, h1, h2, hT]
  · have h1 := hO "name" (by simp [requiredFields]) (by decide)
    have h2 := hO "production" (by simp [requiredFields]) (by decide)
    have h3 := hO "apiUrl" (by simp [requiredFields]) (by decide)
    simp [firstMissingField, requiredFields, List.find?, h1, h2, h3, hT]
  · have h1 := hO "name" (by simp [requiredFields]) (by decide)
    have h2 := hO "production" (by simp [requiredFields]) (by decide)
    have h3 := hO "apiUrl" (by simp [requiredFields]) (by decide)
    have h4 := hO "authUrl" (by simp [requiredFields]) (by decide)
    simp [firstMissingField, requiredFields, List.find?, h1, h2, h3, h4, hT]

lemma validateConfig_eq_error_missing {doc : JDoc} {F : String}
    (h : firstMissingField doc = some F) :
    validateConfig doc = .error ("Missing required configuration field: " ++ F) := by
  simp [validateConfig, h]

lemma validateConfig_ok_iff (doc : JDoc) :
    validateConfig doc = .ok () ↔
      firstMissingField doc = none ∧ isValidUrl (jlookup doc "apiUrl") = true ∧
        isValidUrl (jlookup doc "authUrl") = true := by
  rcases hm : firstMissingField doc with _ | f
  · cases ha : isValidUrl (jlookup doc "apiUrl") <;>
      cases hb : isValidUrl (jlookup doc "authUrl") <;>
        simp [validateConfig, hm, ha, hb]
  · simp [validateConfig, hm]

lemma loadConfig_rejects_of_error {doc : JDoc} {em : String} (s : ConfigService)
    (h : validateConfig doc = .error em) :
    loadConfig s (.fetchOk doc) =
      (⟨some doc⟩, .error "Failed to load application configuration") := by
  simp [loadConfig, h]

/-- `(deployMjs w e).buildCommands` for a valid environment depends only on
the operator file checks, never on `e`. -/
lemma mjs_buildCommands (w : World) (e : String) (he : e ∈ validEnvironments) :
    (deployMjs w e).buildCommands =
      (if w.envFilePresent = false then []
       else match envLookup w.envVars "UNIQUE_ID" with
            | none => []
            | some _ => [buildCommand]) := by
  have hne : e ≠ "" := ne_empty_of_valid he
  rcases hu : envLookup w.envVars "UNIQUE_ID" with _ | u <;>
    cases hp : w.envFilePresent <;>
      simp only [deployMjs, hu, hp, if_neg hne, if_neg (not_not_intro he)] <;>
        first
          | rfl
          | (split_ifs <;> rfl)

/-- `(deploySh w e).buildCommands` for a valid environment depends only on
the `.env.aws` existence check, never on `e`. -/
lemma sh_buildCommands (w : World) (e : String) (he : e ∈ validEnvironments) :
    (deploySh w e).buildCommands =
      (if w.envFilePresent = false then [] else [buildCommand]) := by
  have hne : e ≠ "" := ne_empty_of_valid he
  cases hp : w.envFilePresent <;>
    simp only [deploySh, hp, if_neg hne, if_neg (not_not_intro he)] <;>
      first
        | rfl
        | (split_ifs <;> rfl)

/-! ## Claim C1 — accessor behaviour after a rejected load -/

/-- C1 counterexample: the claim "after `load()` rejects, every field
accessor and `get()` fails with the configuration-not-loaded error" is false
for a validation failure.  `loadConfig` assigns `this.config` before
validating (line 38) and the `catch` block never clears it, so after a fetch
of a document missing `apiUrl` the load rejects, yet `getConfig` returns the
unvalidated document itself and an accessor reads a field out of it. -/
theorem c1_counterexample :
    (loadConfig ⟨none⟩ (.fetchOk cfgMissingApiUrl)).2 =
        .error "Failed to load application configuration" ∧
    getConfig (loadConfig ⟨none⟩ (.fetchOk cfgMissingApiUrl)).1 ≠ .error notLoadedMsg ∧
    getConfig (loadConfig ⟨none⟩ (.fetchOk cfgMissingApiUrl)).1 = .ok cfgMissingApiUrl ∧
    accessor_isProduction (loadConfig ⟨none⟩ (.fetchOk cfgMissingApiUrl)).1 =
        .ok (some (.jbool false)) :=
  ⟨rfl, fun h => Except.noConfusion h, rfl, rfl⟩

/-- C1 (amended): after `load()` rejects due to a fetch or parse failure the
cached config stays `null` and `get()` and every field accessor fail with the
configuration-not-loaded error; but after `load()` rejects due to a
*validation* failure the fetched, unvalidated document remains cached and
`get()`/accessors return it — the all-or-nothing invariant holds only for
fetch/parse failures. -/
theorem c1_accessor_after_rejected_load (doc : JDoc) (m em : String)
    (hbad : validateConfig doc = .error em) :
    (loadConfig ⟨none⟩ (.fetchError m)).2 =
        .error "Failed to load application configuration" ∧
    getConfig (loadConfig ⟨none⟩ (.fetchError m)).1 = .error notLoadedMsg ∧
    (∀ k, getField (loadConfig ⟨none⟩ (.fetchError m)).1 k = .error notLoadedMsg) ∧
    (loadConfig ⟨none⟩ (.fetchOk doc)).2 =
        .error "Failed to load application configuration" ∧
    getConfig (loadConfig ⟨none⟩ (.fetchOk doc)).1 = .ok doc ∧
    (∀ k, getField (loadConfig ⟨none⟩ (.fetchOk doc)).1 k = .ok (jlookup doc k)) := by
  refine ⟨rfl, rfl, fun k => rfl, ?_, ?_, ?_⟩
  · simp [loadConfig, hbad]
  · simp [loadConfig, hbad, getConfig]
  · intro k
    simp [loadConfig, hbad, getField, getConfig, Except.map]

/-- C1 witness: the amended statement at the concrete missing-`apiUrl`
document and a concrete fetch failure. -/
theorem c1_accessor_after_rejected_load_witness :
    (loadConfig ⟨none⟩ (.fetchError "Http failure response")).2 =
        .error "Failed to load application configuration" ∧
    getConfig (loadConfig ⟨none⟩ (.fetchError "Http failure response")).1 =
        .error notLoadedMsg ∧
    getField (loadConfig ⟨none⟩ (.fetchError "Http failure response")).1 "apiUrl" =
        .error notLoadedMsg ∧
    (loadConfig ⟨none⟩ (.fetchOk cfgMissingApiUrl)).2 =
        .error "Failed to load application configuration" ∧
    getConfig (loadConfig ⟨none⟩ (.fetchOk cfgMissingApiUrl)).1 = .ok cfgMissingApiUrl ∧
    getField (loadConfig ⟨none⟩ (.fetchOk cfgMissingApiUrl)).1 "production" =
        .ok (some (.jbool false)) := by
  have H := c1_accessor_after_rejected_load cfgMissingApiUrl "Http failure response"
    "Missing required configuration field: apiUrl" rfl
  exact ⟨H.1, H.2.1, H.2.2.1 "apiUrl", H.2.2.2.1, H.2.2.2.2.1, H.2.2.2.2.2 "production"⟩

/-! ## Claim C2 — the accepted environment set -/

/-- The environment set named by the claim, written from the spec's words
(§4.2: "`environmentName` must be a member of the closed set
{development, qa, staging, production}"), for comparison with the code's
`validEnvironments`. -/
def specClaimedEnvironments : List String :=
  ["development", "qa", "staging", "production"]

/-- C2 counterexample: the scripts do not accept the claimed set —
`deploy("production")` is rejected as an invalid environment by both scripts
even in a fully healthy world, while `deploy("prod")`, which is outside the
claimed set, succeeds. -/
theorem c2_counterexample :
    "production" ∈ specClaimedEnvironments ∧
    (deployMjs allGood "production").exitCode = 1 ∧
    (deployMjs allGood "production").message =
        some "Invalid environment: 'production'" ∧
    (deployMjs allGood "production").buildCommands = [] ∧
    (deploySh allGood "production").exitCode = 1 ∧
    (deploySh allGood "production").message =
        some "Error: Invalid environment 'production'" ∧
    "prod" ∉ specClaimedEnvironments ∧
    (deployMjs allGood "prod").exitCode = 0 ∧
    (deploySh allGood "prod").exitCode = 0 :=
  ⟨by decide, rfl, rfl, rfl, rfl, rfl, by decide, rfl, rfl⟩

/-- C2 (amended): `deploy` accepts exactly {dev, qa, staging, prod}.  Every
input outside that set fails with exit code 1 and zero build, publish or
invalidation side effects; when the input is non-empty the failure is the
invalid-environment error (in `deploy.sh` provided `.env.aws` exists, since
that script checks the operator file first; an empty input yields the usage
error instead).  Each member of the set deploys successfully in a healthy
world. -/
theorem c2_environment_validation :
    (∀ (w : World) (e : String), e ∉ validEnvironments →
      (deployMjs w e).exitCode = 1 ∧ (deployMjs w e).buildCommands = [] ∧
      (deployMjs w e).syncBuckets = [] ∧ (deployMjs w e).invalidationCalls = 0 ∧
      (deploySh w e).exitCode = 1 ∧ (deploySh w e).buildCommands = [] ∧
      (deploySh w e).syncBuckets = [] ∧ (deploySh w e).invalidationCalls = 0 ∧
      (e ≠ "" → (deployMjs w e).message =
        some ("Invalid environment: '" ++ e ++ "'")) ∧
      (e ≠ "" → w.envFilePresent = true → (deploySh w e).message =
        some ("Error: Invalid environment '" ++ e ++ "'"))) ∧
    (∀ e ∈ validEnvironments,
      (deployMjs allGood e).exitCode = 0 ∧ (deploySh allGood e).exitCode = 0) := by
  constructor
  · intro w e h
    by_cases he : e = ""
    · subst he
      cases hp : w.envFilePresent <;>
        simp [deployMjs, deploySh, mjsEarlyFail, shEarlyFail, hp]
    · cases hp : w.envFilePresent <;>
        simp [deployMjs, deploySh, mjsEarlyFail, shEarlyFail, hp, he, h]
  · intro e he
    rcases (mem_validEnvironments_iff e).mp he with rfl | rfl | rfl | rfl <;>
      exact ⟨rfl, rfl⟩

/-- C2 witness: the amended statement at the concrete invalid input
`staging-typo` and at the member `dev`. -/
theorem c2_environment_validation_witness :
    (deployMjs allGood "staging-typo").exitCode = 1 ∧
    (deployMjs allGood "staging-typo").buildCommands = [] ∧
    (deployMjs allGood "staging-typo").message =
        some "Invalid environment: 'staging-typo'" ∧
    (deploySh allGood "staging-typo").message =
        some "Error: Invalid environment 'staging-typo'" ∧
    (deployMjs allGood "dev").exitCode = 0 ∧ (deploySh allGood "dev").exitCode = 0 := by
  have H := c2_environment_validation
  have H1 := H.1 allGood "staging-typo" (by decide)
  have H2 := H.2 "dev" (by decide)
  exact ⟨H1.1, H1.2.1, H1.2.2.2.2.2.2.2.2.1 (by decide),
    H1.2.2.2.2.2.2.2.2.2 (by decide) rfl, H2.1, H2.2⟩

/-! ## Claim C3 — fail-fast on a missing required field -/

/-- C3 confirmed: for every required field F of
{name, production, apiUrl, authUrl, features} (the spec's §3 names
isProduction/apiBaseUrl/authBaseUrl correspond to production/apiUrl/authUrl),
a document in which F is absent or null while every other required field is
present and non-null makes `validateConfig` throw the error naming exactly F
— no other field's absence is conflated with it — and makes `loadConfig`
reject. -/
theorem c3_missing_field_error (doc : JDoc) (F : String)
    (hF : F ∈ requiredFields)
    (hmiss : jlookup doc F = none ∨ jlookup doc F = some .jnull)
    (hothers : ∀ G ∈ requiredFields, G ≠ F → ∃ v, jlookup doc G = some v ∧ v ≠ .jnull) :
    validateConfig doc = .error ("Missing required configuration field: " ++ F) ∧
    (loadConfig ⟨none⟩ (.fetchOk doc)).2 =
        .error "Failed to load application configuration" := by
  have hfm : firstMissingField doc = some F :=
    firstMissingField_eq_some hF (missingIn_true_of_absent hmiss)
      (fun G hG hne => missingIn_false_of_present (hothers G hG hne))
  have hv := validateConfig_eq_error_missing hfm
  exact ⟨hv, by simp [loadConfig, hv]⟩

/-- C3 witness: the document with exactly `production` removed is rejected
with the error naming `production`. -/
theorem c3_missing_field_error_witness :
    validateConfig cfgMissingProduction =
        .error "Missing required configuration field: production" ∧
    (loadConfig ⟨none⟩ (.fetchOk cfgMissingProduction)).2 =
        .error "Failed to load application configuration" :=
  c3_missing_field_error cfgMissingProduction "production"
    (by simp [requiredFields]) (Or.inl rfl)
    (by
      intro G hG hne
      rcases (mem_requiredFields_iff G).mp hG with rfl | rfl | rfl | rfl | rfl
      · exact ⟨.jstr "qa", rfl, by simp⟩
      · exact absurd rfl hne
      · exact ⟨.jstr "https://api-qa.example.com", rfl, by simp⟩
      · exact ⟨.jstr "https://auth-qa.example.com", rfl, by simp⟩
      · exact ⟨.jobj [("enableAnalytics", .jbool false), ("enableLogging", .jbool true)],
          rfl, by simp⟩)

/-! ## Claim C4 — no type checking beyond presence and URL form -/

/-- C4 counterexample: the claim "a wrong-typed required field makes `load()`
fail" is false — `validateConfig` checks only `undefined`/`null` and URL
parseability, so a document with the boolean field `production` mistyped as
the string `yes` validates, `loadConfig` resolves, and the mistyped value is
served unchanged by the accessor path. -/
theorem c4_counterexample :
    jlookup cfgMistypedProduction "production" = some (.jstr "yes") ∧
    validateConfig cfgMistypedProduction = .ok () ∧
    (loadConfig ⟨none⟩ (.fetchOk cfgMistypedProduction)).2 = .ok () ∧
    getField (loadConfig ⟨none⟩ (.fetchOk cfgMistypedProduction)).1 "production" =
        .ok (some (.jstr "yes")) :=
  ⟨rfl, rfl, rfl, rfl⟩

/-- C4 (amended): validation succeeds exactly when every required field is
present and non-null and `apiUrl`/`authUrl` parse as URLs — it neither
coerces nor rejects a mistyped value (a mistyped `apiUrl`/`authUrl` is
rejected only when its string form fails URL parsing). -/
theorem c4_validation_checks_presence_and_urls_only (doc : JDoc) :
    validateConfig doc = .ok () ↔
      (∀ f ∈ requiredFields, jlookup doc f ≠ none ∧ jlookup doc f ≠ some .jnull) ∧
      isValidUrl (jlookup doc "apiUrl") = true ∧
      isValidUrl (jlookup doc "authUrl") = true := by
  rw [validateConfig_ok_iff, firstMissingField_eq_none_iff]
  simp only [missingIn_eq_false_iff]

/-- C4 witness: the characterization applied to the mistyped document —
its `production` field is a non-null string, its URLs parse, so validation
succeeds. -/
theorem c4_validation_checks_presence_and_urls_only_witness :
    validateConfig cfgMistypedProduction = .ok () :=
  (c4_validation_checks_presence_and_urls_only cfgMistypedProduction).mpr
    ⟨by
      intro f hf
      rcases (mem_requiredFields_iff f).mp hf with rfl | rfl | rfl | rfl | rfl <;>
        exact (missingIn_eq_false_iff _ _).mp (by decide),
     by decide, by decide⟩

/-! ## Claim C5 — missing environment configuration document -/

/-- C5 confirmed: when the environment's source configuration document does
not exist on disk, both scripts fail after the build step with exit code 1
and the config-file-not-found error, whose text contains both the expected
source path and (inside the file name) the environment; no publish or
invalidation happens and no tree is published — no default document is
substituted. -/
theorem c5_missing_config_source (w : World) (e u : String)
    (he : e ∈ validEnvironments)
    (hf : w.envFilePresent = true)
    (hu : envLookup w.envVars "UNIQUE_ID" = some u)
    (hb : w.buildOk = true)
    (hc : w.sourceConfigExists (sourceConfigPath e) = false) :
    (deployMjs w e).exitCode = 1 ∧
    (deployMjs w e).message = some ("Config file not found: " ++ sourceConfigPath e) ∧
    (deployMjs w e).syncBuckets = [] ∧
    (deployMjs w e).invalidationCalls = 0 ∧
    (deployMjs w e).publishedTree.isSome = false ∧
    (deploySh w e).exitCode = 1 ∧
    (deploySh w e).message =
        some ("Error: Config file not found: " ++ sourceConfigPath e) ∧
    (deploySh w e).syncBuckets = [] ∧
    (deploySh w e).publishedTree.isSome = false ∧
    containsStr ("Config file not found: " ++ sourceConfigPath e) e ∧
    containsStr ("Config file not found: " ++ sourceConfigPath e) (sourceConfigPath e) ∧
    containsStr ("Error: Config file not found: " ++ sourceConfigPath e) e := by
  rcases (mem_validEnvironments_iff e).mp he with rfl | rfl | rfl | rfl
  · refine ⟨?_, ?_, ?_, ?_, ?_, ?_, ?_, ?_, ?_,
      ⟨"Config file not found: src/assets/config/environment.", ".json", by decide⟩,
      ⟨"Config file not found: ", "", by decide⟩,
      ⟨"Error: Config file not found: src/assets/config/environment.", ".json",
        by decide⟩⟩ <;>
      simp [deployMjs, deploySh, hf, hu, hb, hc, he]
  · refine ⟨?_, ?_, ?_, ?_, ?_, ?_, ?_, ?_, ?_,
      ⟨"Config file not found: src/assets/config/environment.", ".json", by decide⟩,
      ⟨"Config file not found: ", "", by decide⟩,
      ⟨"Error: Config file not found: src/assets/config/environment.", ".json",
        by decide⟩⟩ <;>
      simp [deployMjs, deploySh, hf, hu, hb, hc, he]
  · refine ⟨?_, ?_, ?_, ?_, ?_, ?_, ?_, ?_, ?_,
      ⟨"Config file not found: src/assets/config/environment.", ".json", by decide⟩,
      ⟨"Config file not found: ", "", by decide⟩,
      ⟨"Error: Config file not found: src/assets/config/environment.", ".json",
        by decide⟩⟩ <;>
      simp [deployMjs, deploySh, hf, hu, hb, hc, he]
  · refine ⟨?_, ?_, ?_, ?_, ?_, ?_, ?_, ?_, ?_,
      ⟨"Config file not found: src/assets/config/environment.", "uction.json", by decide⟩,
      ⟨"Config file not found: ", "", by decide⟩,
      ⟨"Error: Config file not found: src/assets/config/environment.", "uction.json",
        by decide⟩⟩ <;>
      simp [deployMjs, deploySh, hf, hu, hb, hc, he]

/-- C5 witness: the statement at `dev` in a world whose only defect is that
no source configuration document exists. -/
theorem c5_missing_config_source_witness :
    (deployMjs noConfigOnDisk "dev").exitCode = 1 ∧
    (deployMjs noConfigOnDisk "dev").message =
        some ("Config file not found: " ++ sourceConfigPath "dev") ∧
    (deployMjs noConfigOnDisk "dev").syncBuckets = [] ∧
    (deployMjs noConfigOnDisk "dev").invalidationCalls = 0 ∧
    (deployMjs noConfigOnDisk "dev").publishedTree.isSome = false ∧
    (deploySh noConfigOnDisk "dev").exitCode = 1 ∧
    (deploySh noConfigOnDisk "dev").message =
        some ("Error: Config file not found: " ++ sourceConfigPath "dev") ∧
    (deploySh noConfigOnDisk "dev").syncBuckets = [] ∧
    (deploySh noConfigOnDisk "dev").publishedTree.isSome = false ∧
    containsStr ("Config file not found: " ++ sourceConfigPath "dev") "dev" ∧
    containsStr ("Config file not found: " ++ sourceConfigPath "dev")
      (sourceConfigPath "dev") ∧
    containsStr ("Error: Config file not found: " ++ sourceConfigPath "dev") "dev" :=
  c5_missing_config_source noConfigOnDisk "dev" "shree-1767366539"
    (by decide) rfl rfl rfl rfl

/-! ## Claim C6 — substitution touches only the fixed config path -/

/-- C6 confirmed: configuration substitution overwrites exactly the fixed
configuration-document path of the artifact tree.  For any artifact and any
two environments, the substituted trees agree byte-for-byte at every other
path (and equal the original artifact there); at the fixed path each tree
holds its own environment's source configuration document. -/
theorem c6_substitution_frame (w : World) (tree : String → Option String)
    (e1 e2 p : String) (hp : p ≠ targetConfigPath) :
    substituteConfig w tree e1 p = substituteConfig w tree e2 p ∧
    substituteConfig w tree e1 p = tree p ∧
    substituteConfig w tree e1 targetConfigPath =
      some (w.sourceConfigBytes (sourceConfigPath e1)) := by
  refine ⟨?_, ?_, ?_⟩ <;> simp [substituteConfig, hp]

/-- C6 witness: the frame property at a concrete artifact, the environments
`dev` and `prod`, and the concrete path `index.html`. -/
theorem c6_substitution_frame_witness :
    substituteConfig allGood emptyTree "dev" "index.html" =
        substituteConfig allGood emptyTree "prod" "index.html" ∧
    substituteConfig allGood emptyTree "dev" "index.html" = emptyTree "index.html" ∧
    substituteConfig allGood emptyTree "dev" targetConfigPath =
        some (allGood.sourceConfigBytes (sourceConfigPath "dev")) :=
  c6_substitution_frame allGood emptyTree "dev" "prod" "index.html" (by decide)

/-! ## Claim C7 — invalidation failure must be non-fatal -/

/-- C7: with build, substitution and publish succeeding and only the
CloudFront invalidation collaborator failing, `deploy.mjs` ends with exit
code 0 and only the non-critical warning (its lines 199–210 catch the
failure), exactly as the claim states; but `deploy.sh` runs under `set -e`,
so the same failure terminates the script with a non-zero status right after
the objects were published, and the warning branch below the `aws cloudfront`
call (its line 136) never runs — the shell script contradicts both the claim
and its own warning text. -/
theorem c7_invalidation_failure_fatal_in_sh :
    (deployMjs invalidationFails "prod").exitCode = 0 ∧
    (deployMjs invalidationFails "prod").invalidationCalls = 1 ∧
    (deployMjs invalidationFails "prod").invalidationWarning = true ∧
    (deployMjs invalidationFails "prod").buildCommands = [buildCommand] ∧
    (deployMjs invalidationFails "prod").syncBuckets =
        ["angular-deploy-prod-shree-1767366539"] ∧
    (deployMjs invalidationFails "prod").publishedTree.isSome = true ∧
    (deploySh invalidationFails "prod").exitCode = 1 ∧
    (deploySh invalidationFails "prod").invalidationCalls = 1 ∧
    (deploySh invalidationFails "prod").invalidationWarning = false ∧
    (deploySh invalidationFails "prod").publishedTree.isSome = true :=
  ⟨rfl, rfl, rfl, rfl, rfl, rfl, rfl, rfl, rfl, rfl⟩

/-! ## Claim C8 — URL validation -/

/-- C8 confirmed: with every required field present and non-null, validation
(and hence `load()`) succeeds exactly when `apiUrl` and `authUrl` parse as
absolute URLs; a non-parsing value produces the fatal error naming the
offending field (`Invalid API URL` / `Invalid Auth URL`) together with the
value itself, and `load()` rejects.  The platform URL parser is modelled by
`urlParses`. -/
theorem c8_url_validation (doc : JDoc)
    (hpres : ∀ f ∈ requiredFields, ∃ v, jlookup doc f = some v ∧ v ≠ .jnull) :
    (isValidUrl (jlookup doc "apiUrl") = true →
      isValidUrl (jlookup doc "authUrl") = true →
      validateConfig doc = .ok () ∧ (loadConfig ⟨none⟩ (.fetchOk doc)).2 = .ok ()) ∧
    (isValidUrl (jlookup doc "apiUrl") = false →
      validateConfig doc =
        .error ("Invalid API URL: " ++ jsToStringOpt (jlookup doc "apiUrl")) ∧
      (loadConfig ⟨none⟩ (.fetchOk doc)).2 =
        .error "Failed to load application configuration") ∧
    (isValidUrl (jlookup doc "apiUrl") = true →
      isValidUrl (jlookup doc "authUrl") = false →
      validateConfig doc =
        .error ("Invalid Auth URL: " ++ jsToStringOpt (jlookup doc "authUrl")) ∧
      (loadConfig ⟨none⟩ (.fetchOk doc)).2 =
        .error "Failed to load application configuration") := by
  have hfm : firstMissingField doc = none :=
    (firstMissingField_eq_none_iff doc).mpr
      (fun f hf => missingIn_false_of_present (hpres f hf))
  refine ⟨fun ha hb => ?_, fun ha => ?_, fun ha hb => ?_⟩
  · have hv : validateConfig doc = .ok () := by simp [validateConfig, hfm, ha, hb]
    exact ⟨hv, by simp [loadConfig, hv]⟩
  · have hv : validateConfig doc =
        .error ("Invalid API URL: " ++ jsToStringOpt (jlookup doc "apiUrl")) := by
      simp [validateConfig, hfm, ha]
    exact ⟨hv, by simp [loadConfig, hv]⟩
  · have hv : validateConfig doc =
        .error ("Invalid Auth URL: " ++ jsToStringOpt (jlookup doc "authUrl")) := by
      simp [validateConfig, hfm, ha, hb]
    exact ⟨hv, by simp [loadConfig, hv]⟩

/-- C8 witness: the well-formed qa document loads; the same document with
`apiUrl = "not a url"` is rejected with the error naming the field and the
value. -/
theorem c8_url_validation_witness :
    (validateConfig cfgValidQa = .ok () ∧
      (loadConfig ⟨none⟩ (.fetchOk cfgValidQa)).2 = .ok ()) ∧
    validateConfig cfgBadApiUrl = .error "Invalid API URL: not a url" ∧
    (loadConfig ⟨none⟩ (.fetchOk cfgBadApiUrl)).2 =
      .error "Failed to load application configuration" := by
  have hp1 : ∀ f ∈ requiredFields, ∃ v, jlookup cfgValidQa f = some v ∧ v ≠ .jnull := by
    intro f hf
    rcases (mem_requiredFields_iff f).mp hf with rfl | rfl | rfl | rfl | rfl <;>
      exact ⟨_, rfl, by simp⟩
  have hp2 : ∀ f ∈ requiredFields, ∃ v, jlookup cfgBadApiUrl f = some v ∧ v ≠ .jnull := by
    intro f hf
    rcases (mem_requiredFields_iff f).mp hf with rfl | rfl | rfl | rfl | rfl <;>
      exact ⟨_, rfl, by simp⟩
  exact ⟨(c8_url_validation cfgValidQa hp1).1 (by decide) (by decide),
    (c8_url_validation cfgBadApiUrl hp2).2.1 (by decide)⟩

/-! ## Claim C9 — the build step is environment-independent -/

/-- C9 confirmed: for any world and any two valid environments, both scripts
issue exactly the same build commands, and every build command issued is the
constant `npm run build -- --configuration=production` — the build step has
no access to the requested environment. -/
theorem c9_build_environment_independent (w : World) (e1 e2 : String)
    (h1 : e1 ∈ validEnvironments) (h2 : e2 ∈ validEnvironments) :
    (deployMjs w e1).buildCommands = (deployMjs w e2).buildCommands ∧
    (deploySh w e1).buildCommands = (deploySh w e2).buildCommands ∧
    (∀ c ∈ (deployMjs w e1).buildCommands,
        c = "npm run build -- --configuration=production") ∧
    (∀ c ∈ (deploySh w e1).buildCommands,
        c = "npm run build -- --configuration=production") := by
  refine ⟨?_, ?_, ?_, ?_⟩
  · rw [mjs_buildCommands w e1 h1, mjs_buildCommands w e2 h2]
  · rw [sh_buildCommands w e1 h1, sh_buildCommands w e2 h2]
  · rw [mjs_buildCommands w e1 h1]
    rcases hu : envLookup w.envVars "UNIQUE_ID" with _ | u <;>
      split_ifs <;> simp [buildCommand]
  · rw [sh_buildCommands w e1 h1]
    split_ifs <;> simp [buildCommand]

/-- C9 witness: the independence statement at the healthy world for `dev`
versus `prod`, plus the issued command itself. -/
theorem c9_build_environment_independent_witness :
    (deployMjs allGood "dev").buildCommands = (deployMjs allGood "prod").buildCommands ∧
    (deploySh allGood "dev").buildCommands = (deploySh allGood "prod").buildCommands ∧
    buildCommand = "npm run build -- --configuration=production" := by
  have H := c9_build_environment_independent allGood "dev" "prod" (by decide) (by decide)
  exact ⟨H.1, H.2.1, H.2.2.1 buildCommand (by decide)⟩

/-! ## Claim C10 — the .env.aws / UNIQUE_ID guard -/

/-- C10 counterexample: `deploy.sh` never checks `UNIQUE_ID`.  With
`.env.aws` present but not defining `UNIQUE_ID`, the shell script proceeds —
the build runs, and the publish goes to the malformed bucket
`angular-deploy-dev-` (the unset variable expands to the empty string) with
overall exit code 0, contradicting the claimed early non-zero exit. -/
theorem c10_counterexample :
    envLookup noUniqueId.envVars "UNIQUE_ID" = none ∧
    noUniqueId.envFilePresent = true ∧
    (deploySh noUniqueId "dev").buildCommands = [buildCommand] ∧
    (deploySh noUniqueId "dev").exitCode = 0 ∧
    (deploySh noUniqueId "dev").syncBuckets = ["angular-deploy-dev-"] :=
  ⟨rfl, rfl, rfl, rfl, rfl⟩

/-- C10 (amended): if `.env.aws` is absent, both scripts exit non-zero before
the build with zero side effects; if it is present but does not define
`UNIQUE_ID`, only `deploy.mjs` exits non-zero before the build —
`deploy.sh` proceeds to run the build. -/
theorem c10_operator_config_guard (w : World) (e : String)
    (he : e ∈ validEnvironments) :
    (w.envFilePresent = false →
      (deployMjs w e).exitCode = 1 ∧ (deployMjs w e).buildCommands = [] ∧
      (deployMjs w e).syncBuckets = [] ∧ (deployMjs w e).invalidationCalls = 0 ∧
      (deploySh w e).exitCode = 1 ∧ (deploySh w e).buildCommands = [] ∧
      (deploySh w e).syncBuckets = [] ∧ (deploySh w e).invalidationCalls = 0) ∧
    (envLookup w.envVars "UNIQUE_ID" = none →
      (deployMjs w e).exitCode = 1 ∧ (deployMjs w e).buildCommands = [] ∧
      (deployMjs w e).syncBuckets = [] ∧ (deployMjs w e).invalidationCalls = 0) ∧
    (envLookup w.envVars "UNIQUE_ID" = none → w.envFilePresent = true →
      (deploySh w e).buildCommands = [buildCommand]) := by
  have hne : e ≠ "" := ne_empty_of_valid he
  refine ⟨fun hp => ?_, fun hu => ?_, fun hu hp => ?_⟩
  · simp [deployMjs, deploySh, mjsEarlyFail, shEarlyFail, hp, hne, he]
  · cases hp : w.envFilePresent <;>
      simp [deployMjs, mjsEarlyFail, hp, hne, he, hu]
  · rw [sh_buildCommands w e he]
    simp [hp]

/-- C10 witness: the amended statement at `dev`, once in a world without
`.env.aws` and once in the world whose `.env.aws` lacks `UNIQUE_ID`. -/
theorem c10_operator_config_guard_witness :
    ((deployMjs { allGood with envFilePresent := false } "dev").exitCode = 1 ∧
      (deploySh { allGood with envFilePresent := false } "dev").exitCode = 1) ∧
    (deployMjs noUniqueId "dev").exitCode = 1 ∧
    (deployMjs noUniqueId "dev").buildCommands = [] ∧
    (deploySh noUniqueId "dev").buildCommands = [buildCommand] := by
  have H1 := c10_operator_config_guard { allGood with envFilePresent := false } "dev"
    (by decide)
  have H2 := c10_operator_config_guard noUniqueId "dev" (by decide)
  have h1 := H1.1 rfl
  have h2 := (H2.2.1 rfl)
  exact ⟨⟨h1.1, h1.2.2.2.2.1⟩, h2.1, h2.2.1, H2.2.2 rfl rfl⟩

end Spec2Proof
